import Mathlib

/-!
Verification of the Chinese-Tutor chat application (src/app.py).

The development shallowly embeds the pure core of the program:

* a JSON value model together with an executable decoder standing for
  Python's `json.loads` (dictionaries are insertion-ordered association
  lists, numbers are exact rationals);
* `parse_response` (app.py lines 136-164) with both sentinel fallbacks;
* `format_message` (app.py lines 166-185);
* `TokenTracker` (app.py lines 53-106) with `add_interaction`,
  `update_totals` and `get_session_stats`;
* the per-turn orchestration of `main` (app.py lines 273-320): input guard,
  user append, completion call, parse, assistant append, error counting,
  and the reset block.

Side effects that only display text (`st.markdown`, `st.error`, spinners)
are dropped; wall-clock timestamps (`datetime.now()`) are omitted from the
embedded records because no verified property mentions them.  Exceptions
raised inside Python are modelled with `Except String`, the message text
standing for `str(e)`.
-/

/-- JSON values as produced by `json.loads`.  Python dictionaries preserve
insertion order and keep the first-insertion position on overwrite, so an
object is an association list built with `dictSet` below.  Numbers are
modelled exactly as rationals. -/
inductive Json where
  | null
  | bool (b : Bool)
  | num (q : ℚ)
  | str (s : String)
  | arr (elems : List Json)
  | obj (fields : List (String × Json))

/-- Python dictionary assignment `d[k] = v`: replace in place if the key is
present (keeping its position), otherwise append at the end. -/
def dictSet (fs : List (String × Json)) (k : String) (v : Json) : List (String × Json) :=
  match fs with
  | [] => [(k, v)]
  | (k', v') :: rest => if k' = k then (k, v) :: rest else (k', v') :: dictSet rest k v

/-- Python dictionary lookup `d.get(k)`. -/
def dictGet (fs : List (String × Json)) (k : String) : Option Json :=
  match fs with
  | [] => none
  | (k', v) :: rest => if k' = k then some v else dictGet rest k

/-- Python membership test `k in d` for a dictionary. -/
def containsKey (fs : List (String × Json)) (k : String) : Bool :=
  fs.any (fun kv => kv.1 == k)

/-- The double-quote character. -/
def qm : Char := Char.ofNat 34

/-- The backslash character. -/
def bs : Char := Char.ofNat 92

/-- The opening curly brace character. -/
def lbc : Char := Char.ofNat 123

/-- The closing curly brace character. -/
def rbc : Char := Char.ofNat 125

/-- Skip JSON whitespace. -/
def skipWs : List Char → List Char
  | [] => []
  | c :: cs => if c = ' ' ∨ c = '\t' ∨ c = '\n' ∨ c = '\r' then skipWs cs else c :: cs

/-- Value of a hexadecimal digit. -/
def hexVal (c : Char) : Option Nat :=
  if '0' ≤ c ∧ c ≤ '9' then some (c.toNat - 48)
  else if 'a' ≤ c ∧ c ≤ 'f' then some (c.toNat - 87)
  else if 'A' ≤ c ∧ c ≤ 'F' then some (c.toNat - 55)
  else none

/-- Translation of a single-character JSON string escape. -/
def escChar (e : Char) : Option Char :=
  if e = qm then some qm
  else if e = bs then some bs
  else if e = '/' then some '/'
  else if e = 'b' then some (Char.ofNat 8)
  else if e = 'f' then some (Char.ofNat 12)
  else if e = 'n' then some '\n'
  else if e = 'r' then some '\r'
  else if e = 't' then some '\t'
  else none

/-- Decode the body of a JSON string literal (after the opening quote),
returning the decoded characters and the input that follows the closing
quote.  Raw control characters are rejected as in Python's strict mode. -/
def parseStringChars : List Char → Except String (List Char × List Char)
  | [] => Except.error "Unterminated string"
  | c :: cs =>
    if c = qm then Except.ok ([], cs)
    else if c = bs then
      match cs with
      | [] => Except.error "Unterminated string"
      | e :: cs2 =>
        if e = 'u' then
          match cs2 with
          | a :: b :: c3 :: d :: cs3 =>
            match hexVal a, hexVal b, hexVal c3, hexVal d with
            | some ha, some hb, some hc, some hd =>
              match parseStringChars cs3 with
              | Except.error msg => Except.error msg
              | Except.ok (s, r) =>
                Except.ok (Char.ofNat (((ha * 16 + hb) * 16 + hc) * 16 + hd) :: s, r)
            | _, _, _, _ => Except.error "Invalid unicode escape"
          | _ => Except.error "Invalid unicode escape"
        else
          match escChar e with
          | none => Except.error "Invalid escape"
          | some ec =>
            match parseStringChars cs2 with
            | Except.error msg => Except.error msg
            | Except.ok (s, r) => Except.ok (ec :: s, r)
    else if c.toNat < 32 then Except.error "Invalid control character"
    else
      match parseStringChars cs with
      | Except.error msg => Except.error msg
      | Except.ok (s, r) => Except.ok (c :: s, r)

/-- Take the longest prefix of decimal digits. -/
def takeDigits : List Char → List Char × List Char
  | [] => ([], [])
  | c :: cs =>
    if c.isDigit then
      let p := takeDigits cs
      (c :: p.1, p.2)
    else ([], c :: cs)

/-- Value of a digit string. -/
def digitsToNat (ds : List Char) : Nat :=
  ds.foldl (fun a c => a * 10 + (c.toNat - 48)) 0

/-- Assemble a rational from sign, integer digits, fraction digits and a
signed decimal exponent. -/
def mkNum (neg : Bool) (ids fds : List Char) (eneg : Bool) (e : Nat) : ℚ :=
  let mant : ℚ := (digitsToNat ids : ℚ) + (digitsToNat fds : ℚ) / ((10 : ℚ) ^ fds.length)
  let mant := if neg then -mant else mant
  if eneg then mant / ((10 : ℚ) ^ e) else mant * ((10 : ℚ) ^ e)

/-- Parse an optional exponent part and finish the number. -/
def parseNumberExp (neg : Bool) (ids fds : List Char) (r : List Char) :
    Except String (Json × List Char) :=
  match r with
  | [] => Except.ok (Json.num (mkNum neg ids fds false 0), [])
  | c :: r2 =>
    if c = 'e' ∨ c = 'E' then
      let p := match r2 with
        | '+' :: rr => (false, rr)
        | '-' :: rr => (true, rr)
        | _ => (false, r2)
      let d := takeDigits p.2
      if d.1.isEmpty then Except.error "Expecting digits in exponent"
      else Except.ok (Json.num (mkNum neg ids fds p.1 (digitsToNat d.1)), d.2)
    else Except.ok (Json.num (mkNum neg ids fds false 0), c :: r2)

/-- Parse an optional fraction part, then the exponent. -/
def parseNumberFrac (neg : Bool) (ids : List Char) (r1 : List Char) :
    Except String (Json × List Char) :=
  match r1 with
  | '.' :: r2 =>
    let d := takeDigits r2
    if d.1.isEmpty then Except.error "Expecting digits in fraction"
    else parseNumberExp neg ids d.1 d.2
  | _ => parseNumberExp neg ids [] r1

/-- Parse a JSON number.  As in Python's decoder, an integer part starting
with `0` consists of that single digit, so `01` parses as `0` with `1`
left over (surfacing as an Extra data error at top level). -/
def parseNumber (cs : List Char) : Except String (Json × List Char) :=
  let p := match cs with
    | '-' :: r => (true, r)
    | _ => (false, cs)
  match p.2 with
  | '0' :: r1 => parseNumberFrac p.1 ['0'] r1
  | cs1 =>
    let d := takeDigits cs1
    if d.1.isEmpty then Except.error "Expecting value"
    else parseNumberFrac p.1 d.1 d.2

/-- Index for the fueled recursive-descent decoder: a single value, the
elements of an array after `[`, or the members of an object after `{`. -/
inductive PK where
  | val
  | elems
  | membs

/-- Result type of each decoder mode. -/
def PRes : PK → Type
  | .val => Json
  | .elems => List Json
  | .membs => List (String × Json)

/-- Fueled recursive-descent JSON decoder.  Object member lists are folded
with `dictSet`, reproducing Python's duplicate-key semantics (last value
wins, first-insertion position kept). -/
def parseP : Nat → (k : PK) → List Char → Except String (PRes k × List Char)
  | 0, _, _ => Except.error "Too deeply nested"
  | fuel + 1, .val, cs =>
    match skipWs cs with
    | [] => Except.error "Expecting value"
    | c :: rest =>
      if c = lbc then
        match skipWs rest with
        | c2 :: r2 =>
          if c2 = rbc then Except.ok (Json.obj [], r2)
          else
            match parseP fuel .membs (c2 :: r2) with
            | Except.error e => Except.error e
            | Except.ok (ms, r3) =>
              Except.ok (Json.obj (ms.foldl (fun acc kv => dictSet acc kv.1 kv.2) []), r3)
        | [] => Except.error "Expecting property name"
      else if c = '[' then
        match skipWs rest with
        | c2 :: r2 =>
          if c2 = ']' then Except.ok (Json.arr [], r2)
          else
            match parseP fuel .elems (c2 :: r2) with
            | Except.error e => Except.error e
            | Except.ok (es, r3) => Except.ok (Json.arr es, r3)
        | [] => Except.error "Expecting value"
      else if c = qm then
        match parseStringChars rest with
        | Except.error e => Except.error e
        | Except.ok (scs, r2) => Except.ok (Json.str (String.mk scs), r2)
      else if c = 't' then
        match rest with
        | 'r' :: 'u' :: 'e' :: r2 => Except.ok (Json.bool true, r2)
        | _ => Except.error "Expecting value"
      else if c = 'f' then
        match rest with
        | 'a' :: 'l' :: 's' :: 'e' :: r2 => Except.ok (Json.bool false, r2)
        | _ => Except.error "Expecting value"
      else if c = 'n' then
        match rest with
        | 'u' :: 'l' :: 'l' :: r2 => Except.ok (Json.null, r2)
        | _ => Except.error "Expecting value"
      else parseNumber (c :: rest)
  | fuel + 1, .elems, cs =>
    match parseP fuel .val cs with
    | Except.error e => Except.error e
    | Except.ok (j, r) =>
      match skipWs r with
      | ',' :: r2 =>
        match parseP fuel .elems r2 with
        | Except.error e => Except.error e
        | Except.ok (es, r3) => Except.ok (j :: es, r3)
      | c :: r2 =>
        if c = ']' then Except.ok ([j], r2) else Except.error "Expecting comma delimiter"
      | [] => Except.error "Expecting comma delimiter"
  | fuel + 1, .membs, cs =>
    match skipWs cs with
    | c :: rest =>
      if c = qm then
        match parseStringChars rest with
        | Except.error e => Except.error e
        | Except.ok (kcs, r2) =>
          match skipWs r2 with
          | ':' :: r3 =>
            match parseP fuel .val r3 with
            | Except.error e => Except.error e
            | Except.ok (v, r4) =>
              match skipWs r4 with
              | ',' :: r5 =>
                match parseP fuel .membs r5 with
                | Except.error e => Except.error e
                | Except.ok (ms, r6) => Except.ok ((String.mk kcs, v) :: ms, r6)
              | c2 :: r5 =>
                if c2 = rbc then Except.ok ([(String.mk kcs, v)], r5)
                else Except.error "Expecting comma delimiter"
              | [] => Except.error "Expecting comma delimiter"
          | _ => Except.error "Expecting colon delimiter"
      else Except.error "Expecting property name"
    | [] => Except.error "Expecting property name"

/-- Model of `json.loads`: decode one value, then require only trailing
whitespace.  The fuel bound `2 * length + 2` exceeds the maximal recursion
depth of any input of that length, so it is never the limiting factor on
inputs a chat reply could contain. -/
def json_loads (s : String) : Except String Json :=
  let cs := s.toList
  match parseP (2 * cs.length + 2) .val cs with
  | Except.error e => Except.error e
  | Except.ok (j, rest) =>
    if (skipWs rest).isEmpty then Except.ok j else Except.error "Extra data"

/-- Field access `d[k]` / `d.get(k)` on a decoded value that is a
dictionary; `none` on any other shape. -/
def jget (j : Json) (k : String) : Option Json :=
  match j with
  | Json.obj fs => dictGet fs k
  | _ => none

/-- The fields the defaulting loop of `parse_response` iterates over
(app.py line 140).  Note that `tips` is not in this list. -/
def required_fields : List String := ["chinese", "pinyin", "english", "corrections", "explanation"]

/-- Contiguous-sublist (substring) test, used for Python's `in` on
strings. -/
def isSubSeq (needle : List Char) : List Char → Bool
  | [] => needle.isEmpty
  | c :: rest => needle.isPrefixOf (c :: rest) || isSubSeq needle rest

/-- Python membership test `field in x` on an arbitrary decoded value:
key lookup for dicts, substring test for strings, element equality for
lists; a `TypeError` (modelled as `Except.error` carrying the `str(e)`
text) for the remaining types. -/
def pyContains (x : Json) (field : String) : Except String Bool :=
  match x with
  | Json.obj fs => Except.ok (containsKey fs field)
  | Json.str s => Except.ok (isSubSeq field.toList s.toList)
  | Json.arr xs => Except.ok (xs.any (fun j => match j with
      | Json.str s => s == field
      | _ => false))
  | Json.null => Except.error "argument of type NoneType is not iterable"
  | Json.bool _ => Except.error "argument of type bool is not iterable"
  | Json.num _ => Except.error "argument of type number is not iterable"

/-- Python item assignment `x[field] = v`: dictionary update for dicts, a
`TypeError` for every other decoded value. -/
def pySetItem (x : Json) (field : String) (v : Json) : Except String Json :=
  match x with
  | Json.obj fs => Except.ok (Json.obj (dictSet fs field v))
  | Json.arr _ => Except.error "list indices must be integers or slices, not str"
  | Json.str _ => Except.error "str object does not support item assignment"
  | Json.null => Except.error "NoneType object does not support item assignment"
  | Json.bool _ => Except.error "bool object does not support item assignment"
  | Json.num _ => Except.error "number object does not support item assignment"

/-- The defaulting loop of `parse_response` (app.py lines 142-144):
`for field in required_fields: if field not in response_dict:
response_dict[field] = ""`. -/
def addMissing (x : Json) : List String → Except String Json
  | [] => Except.ok x
  | f :: rest =>
    match pyContains x f with
    | Except.error e => Except.error e
    | Except.ok true => addMissing x rest
    | Except.ok false =>
      match pySetItem x f (Json.str "") with
      | Except.error e => Except.error e
      | Except.ok x' => addMissing x' rest

/-- `parse_response` (app.py lines 136-164).  A `json.JSONDecodeError`
yields the first-tier sentinel preserving the raw text in `chinese`; any
other exception during processing yields the second-tier sentinel whose
`corrections` field carries `str(e)`. -/
def parse_response (response_text : String) : Json :=
  match json_loads response_text with
  | Except.ok response_dict =>
    match addMissing response_dict required_fields with
    | Except.ok r => r
    | Except.error e => Json.obj
        [ ("chinese", Json.str "Error processing response")
        , ("pinyin", Json.str "Error")
        , ("english", Json.str "Error")
        , ("corrections", Json.str e)
        , ("explanation", Json.str "Please try again") ]
  | Except.error _ => Json.obj
      [ ("chinese", Json.str response_text)
      , ("pinyin", Json.str "Error parsing response")
      , ("english", Json.str "Error parsing response")
      , ("corrections", Json.str "Error in response format")
      , ("explanation", Json.str "Please try again") ]

/-- A message dictionary as consumed by `format_message`, which the source
annotates `Dict[str, str]`: string keys to string values, with Python
dictionary semantics. -/
def StrDict : Type := List (String × String)

/-- Python `d.get(k)` on a string dictionary: `None` when absent. -/
def sget (d : StrDict) (k : String) : Option String :=
  match d with
  | [] => none
  | (k', v) :: rest => if k' = k then some v else sget rest k

/-- Python `d.get(k, default)` on a string dictionary. -/
def sgetD (d : StrDict) (k dflt : String) : String :=
  (sget d k).getD dflt

/-- Python truthiness of `d.get(k)`: `None` and the empty string are
falsy, every other string is truthy. -/
def strTruthy (o : Option String) : Bool :=
  match o with
  | none => false
  | some s => s ≠ ""

/-- `format_message` (app.py lines 166-185): three always-rendered lines
with placeholders for absent keys, then three conditional lines guarded by
truthiness of `corrections`, `explanation` and `tips`. -/
def format_message (d : StrDict) : String :=
  let formatted := "🈺 " ++ sgetD d "chinese" "No Chinese text" ++ "\n\n"
  let formatted := formatted ++ ("🔈 " ++ sgetD d "pinyin" "No pinyin" ++ "\n\n")
  let formatted := formatted ++ ("🌏 " ++ sgetD d "english" "No translation" ++ "\n\n")
  let formatted := if strTruthy (sget d "corrections") then
      formatted ++ ("✍️ Corrections: " ++ sgetD d "corrections" "" ++ "\n\n")
    else formatted
  let formatted := if strTruthy (sget d "explanation") then
      formatted ++ ("📝 Note: " ++ sgetD d "explanation" "" ++ "\n\n")
    else formatted
  let formatted := if strTruthy (sget d "tips") then
      formatted ++ ("💡 Tip: " ++ sgetD d "tips" "")
    else formatted
  formatted

/-- The formatting contract as the specification words it: a join, in
fixed order, of one line per field, where the `chinese`, `pinyin` and
`english` lines are always present (with their placeholder text when the
key is absent) and the `corrections`, `explanation` and `tips` lines are
omitted entirely when the field is empty or absent. -/
def format_spec (d : StrDict) : String :=
  String.join (List.filterMap id
    [ some ("🈺 " ++ sgetD d "chinese" "No Chinese text" ++ "\n\n")
    , some ("🔈 " ++ sgetD d "pinyin" "No pinyin" ++ "\n\n")
    , some ("🌏 " ++ sgetD d "english" "No translation" ++ "\n\n")
    , if strTruthy (sget d "corrections") then
        some ("✍️ Corrections: " ++ sgetD d "corrections" "" ++ "\n\n")
      else none
    , if strTruthy (sget d "explanation") then
        some ("📝 Note: " ++ sgetD d "explanation" "" ++ "\n\n")
      else none
    , if strTruthy (sget d "tips") then
        some ("💡 Tip: " ++ sgetD d "tips" "")
      else none ])

/-- The system prompt (app.py lines 34-51). -/
def SYSTEM_PROMPT : String :=
  "You are a helpful Chinese language tutor specifically teaching at the HSK 4 level. \nYou should:\n1. Respond to student messages in Chinese (using HSK 4 level vocabulary and grammar)\n2. Provide pinyin for all Chinese characters\n3. Provide English translations\n4. If the student writes in Chinese, correct any mistakes they make\n5. Use appropriate HSK 4 vocabulary and grammar patterns in your responses\n6. Be encouraging and supportive\n\nFormat your responses as JSON with the following structure:\n\x7b\n    \"chinese\": \"Chinese text using HSK 4 vocabulary\",\n    \"pinyin\": \"Pinyin with tones\",\n    \"english\": \"English translation\",\n    \"corrections\": \"Corrections for student mistakes (if any)\",\n    \"explanation\": \"Grammar and vocabulary explanations\",\n    \"tips\": \"Learning suggestions or mnemonics (optional)\"\n\x7d"

/-- A transcript turn: `SystemMessage`, `HumanMessage` or `AIMessage`
with its content. -/
inductive Message where
  | system (content : String)
  | human (content : String)
  | ai (content : String)
deriving DecidableEq

/-- One entry of `TokenTracker.history` (app.py lines 66-72); the
`datetime.now()` timestamp is omitted, costs are exact rationals. -/
structure Interaction where
  prompt_tokens : Nat
  completion_tokens : Nat
  total_tokens : Nat
  cost : ℚ
deriving DecidableEq

/-- The mutable fields of `TokenTracker` (app.py lines 55-62); the
`session_start` timestamp and the tiktoken encoder are omitted. -/
structure TokenTracker where
  total_tokens : Nat
  prompt_tokens : Nat
  completion_tokens : Nat
  total_cost : ℚ
  history : List Interaction
deriving DecidableEq

/-- `TokenTracker.__init__`: all totals zero, empty history. -/
def TokenTracker.init : TokenTracker :=
  { total_tokens := 0, prompt_tokens := 0, completion_tokens := 0
  , total_cost := 0, history := [] }

/-- `TokenTracker.update_totals` (app.py lines 76-81). -/
def TokenTracker.update_totals (t : TokenTracker) (i : Interaction) : TokenTracker :=
  let pt := t.prompt_tokens + i.prompt_tokens
  let ct := t.completion_tokens + i.completion_tokens
  { t with
    prompt_tokens := pt
    completion_tokens := ct
    total_tokens := pt + ct
    total_cost := t.total_cost + i.cost }

/-- `TokenTracker.add_interaction` (app.py lines 64-74): append one
interaction record and update the running totals. -/
def TokenTracker.add_interaction (t : TokenTracker)
    (prompt_tokens completion_tokens : Nat) (cost : ℚ) : TokenTracker :=
  let interaction : Interaction :=
    { prompt_tokens := prompt_tokens, completion_tokens := completion_tokens
    , total_tokens := prompt_tokens + completion_tokens, cost := cost }
  TokenTracker.update_totals { t with history := t.history ++ [interaction] } interaction

/-- The record returned by `get_session_stats` (app.py lines 94-103); the
wall-clock `session_duration` entry is omitted.  Python float division is
modelled as exact division on rationals. -/
structure SessionStats where
  total_interactions : Nat
  total_tokens : Nat
  prompt_tokens : Nat
  completion_tokens : Nat
  average_tokens_per_interaction : ℚ
  total_cost : ℚ
  average_cost_per_interaction : ℚ
deriving DecidableEq

/-- `TokenTracker.get_session_stats` (app.py lines 91-106): the averages
are divisions guarded by the truthiness of `self.history`. -/
def TokenTracker.get_session_stats (t : TokenTracker) : SessionStats :=
  { total_interactions := t.history.length
  , total_tokens := t.total_tokens
  , prompt_tokens := t.prompt_tokens
  , completion_tokens := t.completion_tokens
  , average_tokens_per_interaction :=
      if t.history.isEmpty then 0 else (t.total_tokens : ℚ) / (t.history.length : ℚ)
  , total_cost := t.total_cost
  , average_cost_per_interaction :=
      if t.history.isEmpty then 0 else t.total_cost / (t.history.length : ℚ) }

/-- The all-zero statistics record. -/
def zero_stats : SessionStats :=
  { total_interactions := 0, total_tokens := 0, prompt_tokens := 0
  , completion_tokens := 0, average_tokens_per_interaction := 0
  , total_cost := 0, average_cost_per_interaction := 0 }

/-- The session state kept in `st.session_state` (app.py lines 125-134):
the transcript, the token tracker, the error counter and the successful
interaction log (whose entries pair the prompt with the parsed response
dictionary; timestamps omitted). -/
structure AppState where
  messages : List Message
  token_tracker : TokenTracker
  error_count : Nat
  interaction_history : List (String × Json)

/-- The state set up by `initialize_session_state` (app.py lines 125-134):
only the system message, a fresh tracker, zero errors, no interactions. -/
def initial_state : AppState :=
  { messages := [Message.system SYSTEM_PROMPT]
  , token_tracker := TokenTracker.init
  , error_count := 0
  , interaction_history := [] }

/-- Outcome of the external completion call `llm.invoke` (an opaque
collaborator): the assistant's raw text on success, or an exception
(`RateLimitError`, network failure, ...) identified by its message. -/
inductive ApiResult where
  | ok (content : String)
  | err (e : String)

/-- One pass through the user-input block of `main` (app.py lines
273-307).  `st.chat_input` yields a falsy value (`None` or the empty
string) when nothing was submitted, so the walrus guard
`if prompt := st.chat_input(...)` runs the block exactly when `prompt` is
nonempty; there is no whitespace stripping.  On success the raw
`response.content` is parsed, the raw text is appended as the assistant
turn, and the interaction log grows; the tracker is untouched because the
`OpenAICallbackHandler` created at line 285 is never attached to the
`llm.invoke` call and `add_interaction` is never called.  On an exception
from the completion call only the error counter grows. -/
def run_turn (s : AppState) (prompt : String) (api : ApiResult) : AppState :=
  if prompt = "" then s
  else
    let s1 := { s with messages := s.messages ++ [Message.human prompt] }
    match api with
    | ApiResult.ok content =>
      let response_dict := parse_response content
      { s1 with
        messages := s1.messages ++ [Message.ai content]
      , interaction_history := s1.interaction_history ++ [(prompt, response_dict)] }
    | ApiResult.err _ =>
      { s1 with error_count := s1.error_count + 1 }

/-- The displayed transcript `st.session_state.messages[1:]` (app.py line
260): every turn except the initial system message. -/
def AppState.transcript_tail (s : AppState) : List Message :=
  s.messages.drop 1

/-- The confirmed reset block (app.py lines 316-319): transcript back to
the lone system message, fresh tracker, zero error count, empty
interaction log — one state replacement. -/
def reset_conversation (_s : AppState) : AppState :=
  { messages := [Message.system SYSTEM_PROMPT]
  , token_tracker := TokenTracker.init
  , error_count := 0
  , interaction_history := [] }

/-- The pure content of the defaulting loop on a dictionary input: fold
over the field list, appending an empty-string entry for each absent
key. -/
def addMissingObj : List (String × Json) → List String → List (String × Json)
  | fs, [] => fs
  | fs, f :: rest =>
    addMissingObj (if containsKey fs f then fs else dictSet fs f (Json.str "")) rest

/-- A plain-text completion reply that is not valid JSON. -/
def sample_malformed_reply : String := "Sorry, overloaded"

/-- A well-formed reply carrying exactly the three required fields. -/
def sample_ok_reply : String :=
  "\x7b\"chinese\":\"你好\",\"pinyin\":\"ni hao\",\"english\":\"hello\"\x7d"

/-- A decodable reply whose object omits the `chinese` key. -/
def sample_missing_chinese : String := "\x7b\"pinyin\":\"p\"\x7d"

/-- The same reply with an explicitly empty `chinese` field. -/
def sample_empty_chinese : String := "\x7b\"pinyin\":\"p\",\"chinese\":\"\"\x7d"

/-- The assistant reply of the specification's success scenario. -/
def scenario_reply : String :=
  "\x7b\"chinese\":\"你好！很高兴认识你。\",\"pinyin\":\"nǐ hǎo! hěn gāoxìng rènshi nǐ.\",\"english\":\"Hello! Nice to meet you.\",\"corrections\":\"\",\"explanation\":\"Standard greeting.\"\x7d"

theorem json_loads_object_example :
    json_loads "\x7b\"a\": \"x\", \"b\": [true, null]\x7d" =
      Except.ok (Json.obj [("a", Json.str "x"), ("b", Json.arr [Json.bool true, Json.null])]) := rfl

theorem json_loads_plain_text_example :
    json_loads "hello" = Except.error "Expecting value" := rfl

theorem json_loads_duplicate_key_example :
    json_loads "\x7b\"a\":\"x\",\"a\":\"y\"\x7d" = Except.ok (Json.obj [("a", Json.str "y")]) := rfl

theorem json_loads_escape_example :
    json_loads "\"a\\nb\"" = Except.ok (Json.str "a\nb") := rfl

theorem dictGet_dictSet_self (fs : List (String × Json)) (k : String) (v : Json) :
    dictGet (dictSet fs k v) k = some v := by
  induction fs with
  | nil => simp [dictSet, dictGet]
  | cons hd tl ih =>
    obtain ⟨k', v'⟩ := hd
    by_cases h : k' = k
    · simp [dictSet, dictGet, h]
    · simp [dictSet, dictGet, h, ih]

theorem dictGet_dictSet_ne (fs : List (String × Json)) (k k' : String) (v : Json)
    (h : k' ≠ k) : dictGet (dictSet fs k v) k' = dictGet fs k' := by
  have h' : ¬(k = k') := fun hh => h hh.symm
  induction fs with
  | nil => simp [dictSet, dictGet, h']
  | cons hd tl ih =>
    obtain ⟨k0, v0⟩ := hd
    by_cases h0 : k0 = k
    · subst h0
      simp [dictSet, dictGet, h']
    · simp [dictSet, dictGet, h0, ih]

theorem containsKey_eq_isSome (fs : List (String × Json)) (k : String) :
    containsKey fs k = (dictGet fs k).isSome := by
  induction fs with
  | nil => simp [containsKey, dictGet]
  | cons hd tl ih =>
    obtain ⟨k', v'⟩ := hd
    by_cases h : k' = k
    · simp [containsKey, dictGet, h]
    · have hb : (k' == k) = false := beq_eq_false_iff_ne.mpr h
      simp only [containsKey, List.any_cons, hb, Bool.false_or, dictGet, if_neg h]
      exact ih

theorem addMissing_obj_eq (fields : List String) :
    ∀ fs, addMissing (Json.obj fs) fields = Except.ok (Json.obj (addMissingObj fs fields)) := by
  induction fields with
  | nil => intro fs; rfl
  | cons f rest ih =>
    intro fs
    cases hc : containsKey fs f
    · simp [addMissing, pyContains, pySetItem, addMissingObj, hc, ih]
    · simp [addMissing, pyContains, addMissingObj, hc, ih]

theorem dictGet_addMissingObj_some (fields : List String) :
    ∀ fs k v, dictGet fs k = some v → dictGet (addMissingObj fs fields) k = some v := by
  induction fields with
  | nil => intro fs k v h; exact h
  | cons f rest ih =>
    intro fs k v h
    simp only [addMissingObj]
    apply ih
    cases hc : containsKey fs f
    · simp only [hc, Bool.false_eq_true, if_false]
      by_cases hk : k = f
      · subst hk
        rw [containsKey_eq_isSome, h] at hc
        simp at hc
      · rw [dictGet_dictSet_ne _ _ _ _ hk]
        exact h
    · simpa [hc] using h

theorem dictGet_addMissingObj_missing (fields : List String) :
    ∀ fs k, k ∈ fields → dictGet fs k = none →
      dictGet (addMissingObj fs fields) k = some (Json.str "") := by
  induction fields with
  | nil => intro fs k hmem _; exact absurd hmem (List.not_mem_nil k)
  | cons f rest ih =>
    intro fs k hmem h
    simp only [addMissingObj]
    by_cases hk : k = f
    · subst hk
      have hc : containsKey fs k = false := by rw [containsKey_eq_isSome, h]; rfl
      simp only [hc, Bool.false_eq_true, if_false]
      exact dictGet_addMissingObj_some rest _ _ _ (dictGet_dictSet_self fs k _)
    · have hmem' : k ∈ rest := by
        cases hmem with
        | head => exact absurd rfl hk
        | tail _ hm => exact hm
      cases hc : containsKey fs f
      · simp only [hc, Bool.false_eq_true, if_false]
        apply ih _ _ hmem'
        rw [dictGet_dictSet_ne _ _ _ _ hk]
        exact h
      · simp only [hc, if_true]
        exact ih _ _ hmem' h

theorem dictGet_addMissingObj_notmem (fields : List String) :
    ∀ fs k, k ∉ fields → dictGet (addMissingObj fs fields) k = dictGet fs k := by
  induction fields with
  | nil => intro fs k _; rfl
  | cons f rest ih =>
    intro fs k hmem
    have hk : k ≠ f := fun h => hmem (h ▸ List.mem_cons_self f rest)
    have hmem' : k ∉ rest := fun h => hmem (List.mem_cons_of_mem f h)
    simp only [addMissingObj]
    cases hc : containsKey fs f
    · simp only [hc, Bool.false_eq_true, if_false]
      rw [ih _ _ hmem', dictGet_dictSet_ne _ _ _ _ hk]
    · simp only [hc, if_true]
      exact ih _ _ hmem'

/-- C2: for every reply text that `json.loads` cannot decode,
`parse_response` returns the first-tier sentinel dictionary whose
`chinese` field is the untouched original text, whose `pinyin` and
`english` fields are "Error parsing response", whose `corrections` field
is "Error in response format" and whose `explanation` field is "Please
try again"; the failure never propagates because the function is total. -/
theorem parse_response_decode_failure_sentinel (t msg : String)
    (h : json_loads t = Except.error msg) :
    parse_response t = Json.obj
      [ ("chinese", Json.str t)
      , ("pinyin", Json.str "Error parsing response")
      , ("english", Json.str "Error parsing response")
      , ("corrections", Json.str "Error in response format")
      , ("explanation", Json.str "Please try again") ] := by
  simp [parse_response, h]

/-- C2 witness: the sentinel at the concrete non-JSON reply
"Sorry, overloaded". -/
theorem parse_response_decode_failure_sentinel_witness :
    json_loads sample_malformed_reply = Except.error "Expecting value" ∧
    parse_response sample_malformed_reply = Json.obj
      [ ("chinese", Json.str sample_malformed_reply)
      , ("pinyin", Json.str "Error parsing response")
      , ("english", Json.str "Error parsing response")
      , ("corrections", Json.str "Error in response format")
      , ("explanation", Json.str "Please try again") ] :=
  ⟨rfl, parse_response_decode_failure_sentinel sample_malformed_reply "Expecting value" rfl⟩

/-- C4 counterexample: on input "true" decoding succeeds and processing
then raises, but the resulting second-tier sentinel has
chinese = "Error processing response", not "Error" as the claim states. -/
theorem parse_response_second_sentinel_chinese_cex :
    json_loads "true" = Except.ok (Json.bool true) ∧
    jget (parse_response "true") "chinese" = some (Json.str "Error processing response") ∧
    "Error processing response" ≠ "Error" := by
  refine ⟨rfl, rfl, by decide⟩

/-- C4 (amended): when decoding succeeds but the defaulting loop raises,
`parse_response` returns the second-tier sentinel with
chinese = "Error processing response", pinyin = english = "Error",
corrections = the failure detail, explanation = "Please try again". -/
theorem parse_response_processing_failure_sentinel (t : String) (j : Json) (e : String)
    (h1 : json_loads t = Except.ok j)
    (h2 : addMissing j required_fields = Except.error e) :
    parse_response t = Json.obj
      [ ("chinese", Json.str "Error processing response")
      , ("pinyin", Json.str "Error")
      , ("english", Json.str "Error")
      , ("corrections", Json.str e)
      , ("explanation", Json.str "Please try again") ] := by
  simp [parse_response, h1, h2]

/-- C4 witness: the second-tier sentinel at the concrete decodable
non-dictionary reply "true". -/
theorem parse_response_processing_failure_sentinel_witness :
    parse_response "true" = Json.obj
      [ ("chinese", Json.str "Error processing response")
      , ("pinyin", Json.str "Error")
      , ("english", Json.str "Error")
      , ("corrections", Json.str "argument of type bool is not iterable")
      , ("explanation", Json.str "Please try again") ] :=
  parse_response_processing_failure_sentinel "true" (Json.bool true)
    "argument of type bool is not iterable" rfl rfl

/-- C3 counterexample: on a valid reply with the three required fields
present and `tips` absent, the parse output does not contain `tips` at
all — the defaulting loop iterates only over chinese, pinyin, english,
corrections and explanation, so `tips` is not defaulted to "". -/
theorem parse_response_tips_not_defaulted_cex :
    json_loads sample_ok_reply =
      Except.ok (Json.obj
        [("chinese", Json.str "你好"), ("pinyin", Json.str "ni hao"),
         ("english", Json.str "hello")]) ∧
    jget (parse_response sample_ok_reply) "tips" ≠ some (Json.str "") := by
  have h : jget (parse_response sample_ok_reply) "tips" = none := rfl
  exact ⟨rfl, by simp [h]⟩

/-- C3 (amended): on any reply decoding to a dictionary, the required
fields chinese, pinyin and english that are present are returned exactly;
missing `corrections` and `explanation` are defaulted to the empty
string; a missing `tips` field is left absent (not defaulted), which
downstream formatting treats identically to empty. -/
theorem parse_response_object_defaults (t : String) (fs : List (String × Json))
    (h : json_loads t = Except.ok (Json.obj fs)) :
    (∀ v, dictGet fs "chinese" = some v → jget (parse_response t) "chinese" = some v) ∧
    (∀ v, dictGet fs "pinyin" = some v → jget (parse_response t) "pinyin" = some v) ∧
    (∀ v, dictGet fs "english" = some v → jget (parse_response t) "english" = some v) ∧
    (dictGet fs "corrections" = none →
      jget (parse_response t) "corrections" = some (Json.str "")) ∧
    (dictGet fs "explanation" = none →
      jget (parse_response t) "explanation" = some (Json.str "")) ∧
    (dictGet fs "tips" = none → jget (parse_response t) "tips" = none) := by
  have hp : parse_response t = Json.obj (addMissingObj fs required_fields) := by
    simp [parse_response, h, addMissing_obj_eq]
  rw [hp]
  refine ⟨?_, ?_, ?_, ?_, ?_, ?_⟩
  · intro v hv
    exact dictGet_addMissingObj_some required_fields fs "chinese" v hv
  · intro v hv
    exact dictGet_addMissingObj_some required_fields fs "pinyin" v hv
  · intro v hv
    exact dictGet_addMissingObj_some required_fields fs "english" v hv
  · intro hv
    exact dictGet_addMissingObj_missing required_fields fs "corrections"
      (by simp [required_fields]) hv
  · intro hv
    exact dictGet_addMissingObj_missing required_fields fs "explanation"
      (by simp [required_fields]) hv
  · intro hv
    rw [show jget (Json.obj (addMissingObj fs required_fields)) "tips" =
        dictGet (addMissingObj fs required_fields) "tips" from rfl]
    rw [dictGet_addMissingObj_notmem required_fields fs "tips" (by simp [required_fields])]
    exact hv

/-- C3 witness: the defaulting behaviour at a concrete well-formed reply
carrying exactly the three required fields. -/
theorem parse_response_object_defaults_witness :
    jget (parse_response sample_ok_reply) "chinese" = some (Json.str "你好") ∧
    jget (parse_response sample_ok_reply) "corrections" = some (Json.str "") ∧
    jget (parse_response sample_ok_reply) "tips" = none := by
  have h := parse_response_object_defaults sample_ok_reply
    [("chinese", Json.str "你好"), ("pinyin", Json.str "ni hao"),
     ("english", Json.str "hello")] rfl
  exact ⟨h.1 _ rfl, h.2.2.2.1 rfl, h.2.2.2.2.2 rfl⟩

/-- C10: any reply decoding to a dictionary never produces a sentinel:
the result is exactly the input dictionary with the looped-over fields
defaulted; a missing required `chinese` is silently defaulted to the
empty string exactly like an optional field, so the parse output of a
reply omitting `chinese` is pointwise indistinguishable from that of the
same reply carrying an explicitly empty `chinese` field. -/
theorem parse_response_object_no_sentinel (t1 t2 : String) (fs : List (String × Json))
    (h1 : json_loads t1 = Except.ok (Json.obj fs))
    (hmiss : dictGet fs "chinese" = none)
    (h2 : json_loads t2 = Except.ok (Json.obj (dictSet fs "chinese" (Json.str "")))) :
    parse_response t1 = Json.obj (addMissingObj fs required_fields) ∧
    jget (parse_response t1) "chinese" = some (Json.str "") ∧
    (∀ k, jget (parse_response t1) k = jget (parse_response t2) k) := by
  have hp1 : parse_response t1 = Json.obj (addMissingObj fs required_fields) := by
    simp [parse_response, h1, addMissing_obj_eq]
  have hp2 : parse_response t2 =
      Json.obj (addMissingObj (dictSet fs "chinese" (Json.str "")) required_fields) := by
    simp [parse_response, h2, addMissing_obj_eq]
  refine ⟨hp1, ?_, ?_⟩
  · rw [hp1]
    exact dictGet_addMissingObj_missing required_fields fs "chinese"
      (by simp [required_fields]) hmiss
  · intro k
    rw [hp1, hp2]
    show dictGet (addMissingObj fs required_fields) k =
      dictGet (addMissingObj (dictSet fs "chinese" (Json.str "")) required_fields) k
    by_cases hk : k ∈ required_fields
    · by_cases hc : k = "chinese"
      · subst hc
        rw [dictGet_addMissingObj_missing required_fields fs "chinese" hk hmiss]
        rw [dictGet_addMissingObj_some required_fields _ "chinese" (Json.str "")
          (dictGet_dictSet_self fs "chinese" (Json.str ""))]
      · rcases hv : dictGet fs k with _ | v
        · rw [dictGet_addMissingObj_missing required_fields fs k hk hv]
          rw [dictGet_addMissingObj_missing required_fields _ k hk
            (by rw [dictGet_dictSet_ne fs "chinese" k (Json.str "") hc]; exact hv)]
        · rw [dictGet_addMissingObj_some required_fields fs k v hv]
          rw [dictGet_addMissingObj_some required_fields _ k v
            (by rw [dictGet_dictSet_ne fs "chinese" k (Json.str "") hc]; exact hv)]
    · have hc : k ≠ "chinese" := by
        intro hc
        exact hk (hc ▸ (by simp [required_fields]))
      rw [dictGet_addMissingObj_notmem required_fields fs k hk]
      rw [dictGet_addMissingObj_notmem required_fields _ k hk]
      rw [dictGet_dictSet_ne fs "chinese" k (Json.str "") hc]

/-- C10 witness: a reply omitting `chinese` parses without a sentinel,
gains chinese = "", and agrees field-for-field with the parse of the same
reply carrying an explicitly empty `chinese`. -/
theorem parse_response_object_no_sentinel_witness :
    parse_response sample_missing_chinese =
      Json.obj (addMissingObj [("pinyin", Json.str "p")] required_fields) ∧
    jget (parse_response sample_missing_chinese) "chinese" = some (Json.str "") ∧
    jget (parse_response sample_missing_chinese) "english" =
      jget (parse_response sample_empty_chinese) "english" := by
  have h := parse_response_object_no_sentinel sample_missing_chinese sample_empty_chinese
    [("pinyin", Json.str "p")] rfl rfl rfl
  exact ⟨h.1, h.2.1, h.2.2 "english"⟩

/-- C1: on a successful turn the raw reply is parsed into the interaction
log and the raw (unparsed) assistant text is appended to the transcript,
but the token tracker is completely untouched — `main` never calls
`TokenTracker.add_interaction` (the `OpenAICallbackHandler` of app.py
line 285 is created and discarded), so no usage is ever recorded and
`sessionStats()` cannot report total_tokens = 70 after the scenario
turn. -/
theorem run_turn_success_records_no_usage (s : AppState) (p c : String) (h : p ≠ "") :
    run_turn s p (ApiResult.ok c) =
      { s with
        messages := s.messages ++ [Message.human p] ++ [Message.ai c]
        interaction_history := s.interaction_history ++ [(p, parse_response c)] } := by
  simp [run_turn, h]

/-- C1 witness: after the specification's scenario turn (submit "你好",
completion succeeds with usage prompt = 50, completion = 20,
cost = 0.002 — usage the code never even receives), the tracker still
equals the fresh tracker and the session statistics report zero tokens
and zero cost, not 70 and 0.002. -/
theorem run_turn_success_records_no_usage_witness :
    "你好" ≠ "" ∧
    (run_turn initial_state "你好" (ApiResult.ok scenario_reply)).token_tracker =
      initial_state.token_tracker ∧
    (run_turn initial_state "你好"
      (ApiResult.ok scenario_reply)).token_tracker.get_session_stats.total_tokens = 0 ∧
    (run_turn initial_state "你好"
      (ApiResult.ok scenario_reply)).token_tracker.get_session_stats.total_cost = 0 := by
  refine ⟨by decide, ?_, rfl, rfl⟩
  rw [run_turn_success_records_no_usage initial_state "你好" scenario_reply (by decide)]

/-- C5 counterexample: submitting the whitespace-only text "   " is not
rejected — the walrus guard of app.py line 273 only filters falsy values,
so the user turn is appended (and the completion call proceeds), the
transcript growing from one message to two. -/
theorem run_turn_whitespace_accepted_cex :
    (run_turn initial_state "   " (ApiResult.err "RateLimitError")).messages =
      initial_state.messages ++ [Message.human "   "] ∧
    (run_turn initial_state "   " (ApiResult.err "RateLimitError")).messages.length = 2 ∧
    initial_state.messages.length = 1 :=
  ⟨rfl, rfl, rfl⟩

/-- C5 (amended): only empty text is rejected, and silently — the input
block simply does not run, no `InvalidInput` failure is raised and the
state is untouched; every nonempty text, whitespace-only included, is
appended as a user message (and then sent to the API). -/
theorem run_turn_input_guard (s : AppState) (p : String) (api : ApiResult) :
    (p = "" → run_turn s p api = s) ∧
    (p ≠ "" → (run_turn s p api).messages.take (s.messages.length + 1) =
      s.messages ++ [Message.human p]) := by
  constructor
  · intro h
    simp [run_turn, h]
  · intro h
    have hl : s.messages.length + 1 = (s.messages ++ [Message.human p]).length := by simp
    cases api with
    | ok c =>
      have hm : (run_turn s p (ApiResult.ok c)).messages =
          s.messages ++ [Message.human p] ++ [Message.ai c] := by
        simp [run_turn, h]
      rw [hm, hl, List.take_left]
    | err e =>
      have hm : (run_turn s p (ApiResult.err e)).messages =
          s.messages ++ [Message.human p] := by
        simp [run_turn, h]
      rw [hm, hl, List.take_length]

/-- C5 witness: the guard at concrete inputs — empty text leaves the
state untouched; the whitespace-only text " " is appended as a user
turn. -/
theorem run_turn_input_guard_witness :
    run_turn initial_state "" (ApiResult.ok "x") = initial_state ∧
    (run_turn initial_state " " (ApiResult.ok "reply")).messages.take 2 =
      initial_state.messages ++ [Message.human " "] := by
  refine ⟨(run_turn_input_guard initial_state "" (ApiResult.ok "x")).1 rfl, ?_⟩
  exact (run_turn_input_guard initial_state " " (ApiResult.ok "reply")).2 (by decide)

/-- C6: `get_session_stats` on a tracker with no recorded interactions
returns zero for both per-interaction averages — the divisions are
guarded by the truthiness test on `self.history`, so no division error
can occur. -/
theorem get_session_stats_empty_history_zero_averages (t : TokenTracker)
    (h : t.history = []) :
    t.get_session_stats.average_tokens_per_interaction = 0 ∧
    t.get_session_stats.average_cost_per_interaction = 0 := by
  simp [TokenTracker.get_session_stats, h]

/-- C6 witness: the zero averages at the freshly constructed tracker. -/
theorem get_session_stats_empty_history_zero_averages_witness :
    TokenTracker.init.history = [] ∧
    TokenTracker.init.get_session_stats.average_tokens_per_interaction = 0 ∧
    TokenTracker.init.get_session_stats.average_cost_per_interaction = 0 :=
  ⟨rfl, get_session_stats_empty_history_zero_averages TokenTracker.init rfl⟩

/-- C7: `format_message` is exactly the specification's deterministic
join — the chinese, pinyin and english lines always render (placeholder
text when the key is absent), and the corrections, explanation and tips
lines are omitted entirely whenever the field is empty or absent, in the
fixed order chinese, pinyin, english, corrections, explanation, tips. -/
theorem format_message_eq_format_spec (d : StrDict) :
    format_message d = format_spec d := by
  unfold format_message format_spec
  cases h1 : strTruthy (sget d "corrections") <;>
    cases h2 : strTruthy (sget d "explanation") <;>
      cases h3 : strTruthy (sget d "tips") <;>
        simp [h1, h2, h3, String.join]

/-- C8: on any turn whose completion call raises, the just-appended user
turn stays in the transcript, no assistant turn is appended, the error
counter grows by exactly one, and the tracker (hence all usage totals)
and the interaction log are unchanged. -/
theorem run_turn_api_failure_effects (s : AppState) (p e : String) (h : p ≠ "") :
    run_turn s p (ApiResult.err e) =
      { s with
        messages := s.messages ++ [Message.human p]
        error_count := s.error_count + 1 } := by
  simp [run_turn, h]

/-- C8 witness: the failure effects at a concrete turn raising
`RateLimitError` from the initial state. -/
theorem run_turn_api_failure_effects_witness :
    "你好" ≠ "" ∧
    run_turn initial_state "你好" (ApiResult.err "RateLimitError") =
      { initial_state with
        messages := initial_state.messages ++ [Message.human "你好"]
        error_count := initial_state.error_count + 1 } :=
  ⟨by decide, run_turn_api_failure_effects initial_state "你好" "RateLimitError" (by decide)⟩

/-- C9: the confirmed reset replaces transcript, tracker, error counter
and interaction log together in one state replacement equal to the start
state; immediately afterwards the session statistics are the all-zero
record and the displayed transcript (messages after the system turn) is
empty. -/
theorem reset_conversation_start_state (s : AppState) :
    reset_conversation s = initial_state ∧
    (reset_conversation s).token_tracker.get_session_stats = zero_stats ∧
    (reset_conversation s).transcript_tail = [] :=
  ⟨rfl, rfl, rfl⟩

/-- Supporting fact for the usage-recording defect: had `main` called
`add_interaction` with the scenario usage (prompt = 50, completion = 20,
cost = 0.002), the tracker itself would report exactly total_tokens = 70
and total_cost = 0.002 — the accumulation logic is correct and merely
never invoked. -/
theorem add_interaction_scenario_totals :
    (TokenTracker.init.add_interaction 50 20 (2 / 1000)).get_session_stats.total_tokens = 70 ∧
    (TokenTracker.init.add_interaction 50 20 (2 / 1000)).get_session_stats.total_cost =
      2 / 1000 := by
  constructor
  · rfl
  · show (0 : ℚ) + 2 / 1000 = 2 / 1000
    rw [zero_add]
